import Mathlib

/-!
Verification of the nginx-kubernetes-gateway state core: a shallow embedding of
the GatewayClass selector (internal/mode/static/state/graph/gatewayclass.go),
the match prioritizer (internal/mode/static/state/dataplane sort code) and the
endpoint resolver (internal/mode/static/state/resolver), together with proofs
of the documented properties.
-/

/-! ## GatewayClass selector (from gatewayclass.go) -/

/-- types.NamespacedName. -/
structure NamespacedName where
  Namespace : String
  Name : String
deriving DecidableEq, Repr

/-- v1beta1.ParametersReference (only its presence matters to the code). -/
structure ParametersReference where
  Group : String
  Kind : String
  Name : String
deriving DecidableEq, Repr

/-- v1beta1.GatewayClassSpec: the fields read by the code. -/
structure GatewayClassSpec where
  ControllerName : String
  ParametersRef : Option ParametersReference
deriving DecidableEq, Repr

/-- v1beta1.GatewayClass: object metadata plus spec, as read by the code. -/
structure APIGatewayClass where
  Namespace : String
  Name : String
  Spec : GatewayClassSpec
deriving DecidableEq, Repr

/-- conditions.Condition (the Go field Type is spelled CondType here, since
Type is a Lean keyword). -/
structure Condition where
  CondType : String
  Status : String
  Reason : String
  Message : String
deriving DecidableEq, Repr

/-- graph.GatewayClass: the graph entity for the GatewayClass resource. -/
structure GatewayClass where
  Source : APIGatewayClass
  Conditions : List Condition
  Valid : Bool
deriving DecidableEq, Repr

/-- graph.processedGatewayClasses. The Go Ignored map is modelled as an
association list built in iteration order. -/
structure ProcessedGatewayClasses where
  Winner : Option APIGatewayClass
  Ignored : List (NamespacedName × APIGatewayClass)
deriving DecidableEq, Repr

/-- client.ObjectKeyFromObject. -/
def objectKeyFromObject (gc : APIGatewayClass) : NamespacedName :=
  { Namespace := gc.Namespace, Name := gc.Name }

/-- One iteration of the loop body of processGatewayClasses. -/
def pgcStep (gcName controllerName : String)
    (acc : ProcessedGatewayClasses × Bool) (gc : APIGatewayClass) :
    ProcessedGatewayClasses × Bool :=
  if gc.Name = gcName then
    if gc.Spec.ControllerName = controllerName then
      ({ acc.1 with Winner := some gc }, true)
    else
      (acc.1, true)
  else if gc.Spec.ControllerName = controllerName then
    ({ acc.1 with Ignored := acc.1.Ignored ++ [(objectKeyFromObject gc, gc)] }, acc.2)
  else
    acc

/-- graph.processGatewayClasses. The input Go map is modelled as the list of its
values in iteration order; the loop is the left fold of `pgcStep`. -/
def processGatewayClasses (gcs : List APIGatewayClass)
    (gcName controllerName : String) : ProcessedGatewayClasses × Bool :=
  gcs.foldl (pgcStep gcName controllerName) ({ Winner := none, Ignored := [] }, false)

/-- Modelled from the spec: staticConds.NewGatewayClassInvalidParameters is not
under the sources; the spec's closed condition vocabulary names an
Invalid-Parameters condition carrying a human-readable message. -/
def NewGatewayClassInvalidParameters (msg : String) : Condition :=
  { CondType := "Accepted", Status := "False", Reason := "InvalidParameters", Message := msg }

/-- graph.validateGatewayClass: a non-nil parametersRef is forbidden; the
returned error text cites the spec.parametersRef field path. -/
def validateGatewayClass (gc : APIGatewayClass) : Option String :=
  if gc.Spec.ParametersRef.isSome then
    some "spec.parametersRef: Forbidden: parametersRef is not supported"
  else
    none

/-- graph.buildGatewayClass: nil in, nil out; otherwise the entity is always
constructed, with Valid false and one condition exactly when validation fails. -/
def buildGatewayClass : Option APIGatewayClass → Option GatewayClass
  | none => none
  | some gc =>
    match validateGatewayClass gc with
    | some err =>
      some { Source := gc, Valid := false, Conditions := [NewGatewayClassInvalidParameters err] }
    | none =>
      some { Source := gc, Valid := true, Conditions := [] }

/-! ## Match prioritizer (from the dataplane sort code) -/

/-- v1beta1.HTTPHeaderMatch (only its count matters to the comparator). -/
structure HTTPHeaderMatch where
  Name : String
  Value : String
deriving DecidableEq, Repr

/-- v1beta1.HTTPQueryParamMatch (only its count matters to the comparator). -/
structure HTTPQueryParamMatch where
  Name : String
  Value : String
deriving DecidableEq, Repr

/-- v1beta1.HTTPRouteMatch: the fields read by higherPriority. -/
structure HTTPRouteMatch where
  Method : Option String
  Headers : List HTTPHeaderMatch
  QueryParams : List HTTPQueryParamMatch
deriving DecidableEq, Repr

/-- metav1.ObjectMeta of the originating Route: namespace, name and creation
timestamp (modelled as a natural number of time units). -/
structure ObjectMeta where
  Namespace : String
  Name : String
  CreationTimestamp : Nat
deriving DecidableEq, Repr

/-- Modelled from the spec: dataplane.MatchRule (its declaration is not under
the sources) pairs one match predicate with the originating Route object
metadata used for tie-breaking. -/
structure MatchRule where
  RouteMatch : HTTPRouteMatch
  SourceMeta : ObjectMeta
deriving DecidableEq, Repr

/-- Modelled from the spec: MatchRule.GetMatch returns the rule's match. -/
def MatchRule.GetMatch (r : MatchRule) : HTTPRouteMatch := r.RouteMatch

/-- The "{namespace}/{name}" key of an ObjectMeta. -/
def ObjectMeta.nsname (m : ObjectMeta) : String :=
  m.Namespace ++ "/" ++ m.Name

/-- Modelled from the spec: sort.LessObjectMeta (not under the sources) — the
older creation timestamp is less; on equal timestamps the lexicographically
earlier "{namespace}/{name}" is less. -/
def lessObjectMeta (meta1 meta2 : ObjectMeta) : Bool :=
  if meta1.CreationTimestamp = meta2.CreationTimestamp then
    decide (meta1.nsname < meta2.nsname)
  else
    decide (meta1.CreationTimestamp < meta2.CreationTimestamp)

/-- dataplane.higherPriority: true when rule1 has higher priority than rule2.
Method presence dominates, then header count, then query-param count, then the
object-meta tie break. -/
def higherPriority (rule1 rule2 : MatchRule) : Bool :=
  let match1 := rule1.GetMatch
  let match2 := rule2.GetMatch
  if match1.Method.isSome && !match2.Method.isSome then
    true
  else if match2.Method.isSome && !match1.Method.isSome then
    false
  else if match1.Headers.length ≠ match2.Headers.length then
    decide (match1.Headers.length > match2.Headers.length)
  else if match1.QueryParams.length ≠ match2.QueryParams.length then
    decide (match1.QueryParams.length > match2.QueryParams.length)
  else
    lessObjectMeta rule1.SourceMeta rule2.SourceMeta

/-- dataplane.sortMatchRules: Go sort.SliceStable with higherPriority as the
less function, modelled as the stable merge sort with the complementary
not-less-than relation (identical output for a strict weak order). -/
def sortMatchRules (matchRules : List MatchRule) : List MatchRule :=
  matchRules.mergeSort fun r1 r2 => !higherPriority r2 r1

/-- The lexicographic ranking key realized by higherPriority: method presence
first (present ranks before absent), then more headers first, then more query
params first, then older timestamp first, then earlier namespace/name first. -/
def ruleKey (r : MatchRule) : Lex (Int × Lex (Int × Lex (Int × Lex (Nat × String)))) :=
  toLex ((if r.GetMatch.Method.isSome then 0 else 1 : Int),
    toLex (-(r.GetMatch.Headers.length : Int),
      toLex (-(r.GetMatch.QueryParams.length : Int),
        toLex (r.SourceMeta.CreationTimestamp, r.SourceMeta.nsname))))

/-! ## Endpoint resolver -/

/-- discoveryV1.AddressType. -/
inductive AddressType where
  | IPv4
  | IPv6
  | FQDN
deriving DecidableEq, Repr

/-- discoveryV1.EndpointConditions. -/
structure EndpointConditions where
  Ready : Option Bool
deriving DecidableEq, Repr

/-- discoveryV1.Endpoint: the addresses it carries and its conditions. -/
structure K8sEndpoint where
  Addresses : List String
  Conditions : EndpointConditions
deriving DecidableEq, Repr

/-- discoveryV1.EndpointPort. -/
structure EndpointPort where
  Name : Option String
  Port : Option Int
deriving DecidableEq, Repr

/-- discoveryV1.EndpointSlice: the fields read by the resolver. -/
structure EndpointSlice where
  AddrType : AddressType
  Endpoints : List K8sEndpoint
  Ports : List EndpointPort
deriving DecidableEq, Repr

/-- intstr.IntOrString. The Go zero value (an absent target port) is int 0. -/
inductive IntOrString where
  | int (v : Int)
  | str (s : String)
deriving DecidableEq, Repr

/-- v1.ServicePort: the fields read by the resolver. -/
structure ServicePort where
  Name : String
  Port : Int
  TargetPort : IntOrString
deriving DecidableEq, Repr

/-- v1.Service: its list of service ports. -/
structure Service where
  Ports : List ServicePort
deriving DecidableEq, Repr

/-- resolver.Endpoint: a resolved backend unit, a concrete address and port. -/
structure Endpoint where
  Address : String
  Port : Int
deriving DecidableEq, Repr

/-- Modelled from the spec: resolver.getServicePort (resolver.go is absent from
the sources; only its tests are present) — the first ServicePort on the Service
whose Port equals the requested port number, else a NotFoundError. -/
def getServicePort (svc : Service) (port : Int) : Except String ServicePort :=
  match svc.Ports.find? fun p => p.Port = port with
  | some p => Except.ok p
  | none => Except.error "no service port found for given port"

/-- Modelled from the spec: resolver.getDefaultPort — the Service target port
resolution: an integer target port is used directly (the zero value means an
absent target port), a named or absent target port resolves to the declared
Port value. -/
def getDefaultPort (svcPort : ServicePort) : Int :=
  match svcPort.TargetPort with
  | IntOrString.int v => if v = 0 then svcPort.Port else v
  | IntOrString.str _ => svcPort.Port

/-- Modelled from the spec: resolver.findPort — scans the slice ports; a nil
endpoint Port falls back to the Service target port resolution; a named
endpoint port matching the service port name (empty-named service ports match
empty-named endpoint ports) is used directly; no match yields 0. -/
def findPort : List EndpointPort → ServicePort → Int
  | [], _ => 0
  | p :: rest, svcPort =>
    match p.Port with
    | none => getDefaultPort svcPort
    | some portVal =>
      match p.Name with
      | some portName => if portName = svcPort.Name then portVal else findPort rest svcPort
      | none => findPort rest svcPort

/-- Modelled from the spec: resolver.ignoreEndpointSlice — a slice is ignored
when its address type is not IPv4 or when its Ports contain no entry matching
the requested service port. -/
def ignoreEndpointSlice (endpointSlice : EndpointSlice) (port : ServicePort) : Bool :=
  if endpointSlice.AddrType ≠ AddressType.IPv4 then
    true
  else
    findPort endpointSlice.Ports port = 0

/-- Modelled from the spec: resolver.filterEndpointSliceList — keeps exactly
the slices that are not ignored. -/
def filterEndpointSliceList (slices : List EndpointSlice) (port : ServicePort) :
    List EndpointSlice :=
  slices.filter fun es => !ignoreEndpointSlice es port

/-- Modelled from the spec: resolver.endpointReady — an endpoint is ready
exactly when its readiness condition is explicitly true (a nil Ready is treated
as not ready). -/
def endpointReady (endpoint : K8sEndpoint) : Bool :=
  match endpoint.Conditions.Ready with
  | some b => b
  | none => false

/-- Modelled from the spec: the endpoint-set accumulation of
resolver.resolveEndpoints for an already-looked-up service port — every address
of every ready endpoint of every retained slice, paired with the resolved
endpoint port, deduplicated via a set. -/
def resolveForPort (svcPort : ServicePort) (slices : List EndpointSlice) : Finset Endpoint :=
  ((filterEndpointSliceList slices svcPort).flatMap fun es =>
    (es.Endpoints.filter endpointReady).flatMap fun e =>
      e.Addresses.map fun a => { Address := a, Port := findPort es.Ports svcPort }).toFinset

/-- Modelled from the spec: resolver.resolveEndpoints — fails with a
NotFoundError when no ServicePort matches the requested port, else returns the
deduplicated endpoint set. -/
def resolveEndpoints (svc : Service) (port : Int) (slices : List EndpointSlice) :
    Except String (Finset Endpoint) :=
  match getServicePort svc port with
  | Except.error e => Except.error e
  | Except.ok svcPort => Except.ok (resolveForPort svcPort slices)

/-! ## Order lemmas for the match prioritizer -/

/-- lessObjectMeta decides the strict lexicographic order on
(creation timestamp, namespace/name). -/
theorem lessObjectMeta_iff (m1 m2 : ObjectMeta) :
    lessObjectMeta m1 m2 = true ↔
      (m1.CreationTimestamp < m2.CreationTimestamp ∨
        (m1.CreationTimestamp = m2.CreationTimestamp ∧ m1.nsname < m2.nsname)) := by
  unfold lessObjectMeta
  by_cases h : m1.CreationTimestamp = m2.CreationTimestamp <;>
    simp [h, lt_self_iff_false]

/-- higherPriority decides the strict lexicographic order on ruleKey. -/
theorem higherPriority_iff (a b : MatchRule) :
    higherPriority a b = true ↔ ruleKey a < ruleKey b := by
  unfold higherPriority ruleKey
  by_cases h1 : a.GetMatch.Method.isSome <;>
    by_cases h2 : b.GetMatch.Method.isSome <;>
    by_cases hl : a.GetMatch.Headers.length = b.GetMatch.Headers.length <;>
    by_cases hq : a.GetMatch.QueryParams.length = b.GetMatch.QueryParams.length <;>
    simp [Prod.Lex.lt_iff, h1, h2, hl, hq, lessObjectMeta_iff, lt_self_iff_false,
      neg_lt_neg_iff, neg_inj, Nat.cast_inj, Nat.cast_lt]

/-- higherPriority is false exactly when the key is not strictly smaller. -/
theorem higherPriority_false_iff (a b : MatchRule) :
    higherPriority a b = false ↔ ¬ ruleKey a < ruleKey b := by
  rw [← higherPriority_iff]
  cases h : higherPriority a b <;> simp [h]

/-- The not-higher-priority relation used by sortMatchRules is transitive. -/
theorem notHigher_trans (a b c : MatchRule)
    (hab : (!higherPriority b a) = true) (hbc : (!higherPriority c b) = true) :
    (!higherPriority c a) = true := by
  simp only [Bool.not_eq_true'] at hab hbc ⊢
  rw [higherPriority_false_iff] at hab hbc ⊢
  intro h
  exact hbc (lt_of_lt_of_le h (not_lt.mp hab))

/-- The not-higher-priority relation used by sortMatchRules is total. -/
theorem notHigher_total (a b : MatchRule) :
    ((!higherPriority b a) || (!higherPriority a b)) = true := by
  cases hab : higherPriority b a with
  | false => simp
  | true =>
    cases hba : higherPriority a b with
    | false => simp
    | true =>
      rw [higherPriority_iff] at hab hba
      exact absurd hab (lt_asymm hba)

/-- Rules that are tied on every comparator criterion have equal keys. -/
theorem ruleKey_eq_of_tied (a b : MatchRule)
    (hm : a.GetMatch.Method.isSome = b.GetMatch.Method.isSome)
    (hh : a.GetMatch.Headers.length = b.GetMatch.Headers.length)
    (hq : a.GetMatch.QueryParams.length = b.GetMatch.QueryParams.length)
    (ht : a.SourceMeta.CreationTimestamp = b.SourceMeta.CreationTimestamp)
    (hns : a.SourceMeta.Namespace = b.SourceMeta.Namespace)
    (hn : a.SourceMeta.Name = b.SourceMeta.Name) :
    ruleKey a = ruleKey b := by
  unfold ruleKey
  rw [hm, hh, hq, ht]
  unfold ObjectMeta.nsname
  rw [hns, hn]

/-! ## Fold lemmas for the GatewayClass selector -/

/-- The Winner after folding is the last full (name and controller) match of
the traversal, defaulting to the accumulator's Winner. -/
theorem pgc_foldl_winner (gcName controllerName : String) (gcs : List APIGatewayClass) :
    ∀ acc : ProcessedGatewayClasses × Bool,
      (gcs.foldl (pgcStep gcName controllerName) acc).1.Winner =
        match gcs.reverse.find?
            (fun gc => gc.Name = gcName ∧ gc.Spec.ControllerName = controllerName) with
        | some gc => some gc
        | none => acc.1.Winner := by
  induction gcs with
  | nil => intro acc; rfl
  | cons gc rest ih =>
    intro acc
    rw [List.foldl_cons, ih, List.reverse_cons, List.find?_append]
    cases hfind : rest.reverse.find?
        (fun gc => gc.Name = gcName ∧ gc.Spec.ControllerName = controllerName) with
    | some x => simp
    | none =>
      by_cases hname : gc.Name = gcName <;>
        by_cases hctrl : gc.Spec.ControllerName = controllerName <;>
        simp [pgcStep, hname, hctrl, List.find?]

/-- The Ignored list after folding extends the accumulator's by the
name-mismatched, controller-matched classes, keyed by namespaced name. -/
theorem pgc_foldl_ignored (gcName controllerName : String) (gcs : List APIGatewayClass) :
    ∀ acc : ProcessedGatewayClasses × Bool,
      (gcs.foldl (pgcStep gcName controllerName) acc).1.Ignored =
        acc.1.Ignored ++
          (gcs.filter fun gc => ¬gc.Name = gcName ∧ gc.Spec.ControllerName = controllerName).map
            (fun gc => (objectKeyFromObject gc, gc)) := by
  induction gcs with
  | nil => intro acc; simp
  | cons gc rest ih =>
    intro acc
    rw [List.foldl_cons, ih]
    by_cases hname : gc.Name = gcName <;>
      by_cases hctrl : gc.Spec.ControllerName = controllerName <;>
      simp [pgcStep, hname, hctrl, List.filter_cons]

/-- The exists boolean after folding records whether any class carries the
configured name. -/
theorem pgc_foldl_exists (gcName controllerName : String) (gcs : List APIGatewayClass) :
    ∀ acc : ProcessedGatewayClasses × Bool,
      (gcs.foldl (pgcStep gcName controllerName) acc).2 =
        (acc.2 || gcs.any fun gc => gc.Name = gcName) := by
  induction gcs with
  | nil => intro acc; simp
  | cons gc rest ih =>
    intro acc
    rw [List.foldl_cons, ih]
    by_cases hname : gc.Name = gcName <;>
      by_cases hctrl : gc.Spec.ControllerName = controllerName <;>
      simp [pgcStep, hname, hctrl]

/-- In a list with pairwise-distinct names, equality of names forces equality
of elements. -/
theorem name_unique (l : List APIGatewayClass)
    (h : l.Pairwise fun g1 g2 => g1.Name ≠ g2.Name) (x y : APIGatewayClass)
    (hx : x ∈ l) (hy : y ∈ l) (hname : x.Name = y.Name) : x = y := by
  induction l with
  | nil => cases hx
  | cons a rest ih =>
    rcases List.mem_cons.mp hx with rfl | hx2
    · rcases List.mem_cons.mp hy with rfl | hy2
      · rfl
      · exact absurd hname ((List.pairwise_cons.mp h).1 y hy2)
    · rcases List.mem_cons.mp hy with rfl | hy2
      · exact absurd hname.symm ((List.pairwise_cons.mp h).1 x hx2)
      · exact ih (List.pairwise_cons.mp h).2 hx2 hy2

/-! ## Membership characterization for the resolver -/

/-- An endpoint is resolved exactly when some retained slice carries a ready
endpoint listing its address, with the port resolved from that slice. -/
theorem mem_resolveForPort (svcPort : ServicePort) (slices : List EndpointSlice)
    (ep : Endpoint) :
    ep ∈ resolveForPort svcPort slices ↔
      ∃ es ∈ slices, ignoreEndpointSlice es svcPort = false ∧
        ∃ e ∈ es.Endpoints, endpointReady e = true ∧
          ∃ a ∈ e.Addresses, ep = { Address := a, Port := findPort es.Ports svcPort } := by
  simp only [resolveForPort, filterEndpointSliceList, List.mem_toFinset, List.mem_flatMap,
    List.mem_filter, List.mem_map, Bool.not_eq_true']
  constructor
  · rintro ⟨es, ⟨hes, hig⟩, e, ⟨he, hrdy⟩, a, ha, rfl⟩
    exact ⟨es, hes, hig, e, he, hrdy, a, ha, rfl⟩
  · rintro ⟨es, hes, hig, e, he, hrdy, a, ha, rfl⟩
    exact ⟨es, ⟨hes, hig⟩, e, ⟨he, hrdy⟩, a, ha, rfl⟩

/-- A slice is not ignored exactly when it is IPv4 and a port matches. -/
theorem ignoreEndpointSlice_false_iff (es : EndpointSlice) (svcPort : ServicePort) :
    ignoreEndpointSlice es svcPort = false ↔
      es.AddrType = AddressType.IPv4 ∧ findPort es.Ports svcPort ≠ 0 := by
  unfold ignoreEndpointSlice
  by_cases hty : es.AddrType = AddressType.IPv4 <;> simp [hty]

/-- An endpoint is ready exactly when its Ready condition is explicitly true. -/
theorem endpointReady_iff (e : K8sEndpoint) :
    endpointReady e = true ↔ e.Conditions.Ready = some true := by
  unfold endpointReady
  cases h : e.Conditions.Ready with
  | none => simp
  | some b => cases b <;> simp

/-! ## Claims -/

/-- Claim C1: for every map of GatewayClasses (modelled as a list of classes
with pairwise-distinct names, in iteration order) and every configuredName and
controllerName, processGatewayClasses returns: exists true iff some class has
the configured name; Winner exactly the class matching both name and
controller (unset, with exists still true, when the name-matched class has a
different controller); Ignored exactly the name-mismatched, controller-matched
classes keyed by namespaced name; and on the concrete three-class example it
returns Winner = the first class, Ignored = key "other", exists = true. -/
theorem processGatewayClasses_correct :
    (∀ (gcs : List APIGatewayClass) (gcName controllerName : String),
      gcs.Pairwise (fun g1 g2 => g1.Name ≠ g2.Name) →
      ((processGatewayClasses gcs gcName controllerName).2 = true ↔
          ∃ gc ∈ gcs, gc.Name = gcName)
      ∧ (∀ gc, (processGatewayClasses gcs gcName controllerName).1.Winner = some gc →
          gc ∈ gcs ∧ gc.Name = gcName ∧ gc.Spec.ControllerName = controllerName)
      ∧ (∀ gc ∈ gcs, gc.Name = gcName → gc.Spec.ControllerName = controllerName →
          (processGatewayClasses gcs gcName controllerName).1.Winner = some gc)
      ∧ (∀ gc ∈ gcs, gc.Name = gcName → ¬gc.Spec.ControllerName = controllerName →
          (processGatewayClasses gcs gcName controllerName).1.Winner = none
          ∧ (processGatewayClasses gcs gcName controllerName).2 = true)
      ∧ (processGatewayClasses gcs gcName controllerName).1.Ignored =
          (gcs.filter fun gc =>
            ¬gc.Name = gcName ∧ gc.Spec.ControllerName = controllerName).map
            (fun gc => (objectKeyFromObject gc, gc)))
    ∧ processGatewayClasses
        [⟨"", "nginx", ⟨"ctrl-A", none⟩⟩, ⟨"", "other", ⟨"ctrl-A", none⟩⟩,
          ⟨"", "nginx", ⟨"ctrl-B", none⟩⟩] "nginx" "ctrl-A" =
      ({ Winner := some ⟨"", "nginx", ⟨"ctrl-A", none⟩⟩,
         Ignored := [(⟨"", "other"⟩, ⟨"", "other", ⟨"ctrl-A", none⟩⟩)] }, true) := by
  constructor
  · intro gcs gcName controllerName hdist
    have hw := pgc_foldl_winner gcName controllerName gcs
      ({ Winner := none, Ignored := [] }, false)
    have hi := pgc_foldl_ignored gcName controllerName gcs
      ({ Winner := none, Ignored := [] }, false)
    have he := pgc_foldl_exists gcName controllerName gcs
      ({ Winner := none, Ignored := [] }, false)
    refine ⟨?_, ?_, ?_, ?_, ?_⟩
    · unfold processGatewayClasses
      rw [he]
      simp [List.any_eq_true]
    · intro gc hgc
      unfold processGatewayClasses at hgc
      rw [hw] at hgc
      cases hfind : gcs.reverse.find?
          (fun gc => gc.Name = gcName ∧ gc.Spec.ControllerName = controllerName) with
      | none => rw [hfind] at hgc; cases hgc
      | some x =>
        rw [hfind] at hgc
        cases hgc
        have hpx := List.find?_some hfind
        simp only [decide_eq_true_eq] at hpx
        exact ⟨List.mem_reverse.mp (List.mem_of_find?_eq_some hfind), hpx.1, hpx.2⟩
    · intro gc hmem hname hctrl
      unfold processGatewayClasses
      rw [hw]
      cases hfind : gcs.reverse.find?
          (fun gc => gc.Name = gcName ∧ gc.Spec.ControllerName = controllerName) with
      | none =>
        exfalso
        rw [List.find?_eq_none] at hfind
        exact hfind gc (List.mem_reverse.mpr hmem) (by simp [hname, hctrl])
      | some x =>
        have hpx := List.find?_some hfind
        simp only [decide_eq_true_eq] at hpx
        have hxmem := List.mem_reverse.mp (List.mem_of_find?_eq_some hfind)
        rw [name_unique gcs hdist x gc hxmem hmem (hpx.1.trans hname.symm)]
    · intro gc hmem hname hctrl
      constructor
      · unfold processGatewayClasses
        rw [hw]
        cases hfind : gcs.reverse.find?
            (fun gc => gc.Name = gcName ∧ gc.Spec.ControllerName = controllerName) with
        | none => rfl
        | some x =>
          exfalso
          have hpx := List.find?_some hfind
          simp only [decide_eq_true_eq] at hpx
          have hxmem := List.mem_reverse.mp (List.mem_of_find?_eq_some hfind)
          exact hctrl (name_unique gcs hdist x gc hxmem hmem (hpx.1.trans hname.symm) ▸ hpx.2)
      · unfold processGatewayClasses
        rw [he]
        simp only [Bool.false_or, List.any_eq_true, decide_eq_true_eq]
        exact ⟨gc, hmem, hname⟩
    · unfold processGatewayClasses
      rw [hi]
      simp
  · decide

/-- Witness for Claim C1 on a concrete singleton input. -/
theorem processGatewayClasses_correct_witness :
    (((processGatewayClasses [⟨"", "nginx", ⟨"ctrl", none⟩⟩] "nginx" "ctrl").2 = true ↔
        ∃ gc ∈ [(⟨"", "nginx", ⟨"ctrl", none⟩⟩ : APIGatewayClass)], gc.Name = "nginx")
      ∧ (∀ gc, (processGatewayClasses [⟨"", "nginx", ⟨"ctrl", none⟩⟩] "nginx"
            "ctrl").1.Winner = some gc →
          gc ∈ [(⟨"", "nginx", ⟨"ctrl", none⟩⟩ : APIGatewayClass)] ∧ gc.Name = "nginx"
            ∧ gc.Spec.ControllerName = "ctrl")
      ∧ (∀ gc ∈ [(⟨"", "nginx", ⟨"ctrl", none⟩⟩ : APIGatewayClass)], gc.Name = "nginx" →
          gc.Spec.ControllerName = "ctrl" →
          (processGatewayClasses [⟨"", "nginx", ⟨"ctrl", none⟩⟩] "nginx"
            "ctrl").1.Winner = some gc)
      ∧ (∀ gc ∈ [(⟨"", "nginx", ⟨"ctrl", none⟩⟩ : APIGatewayClass)], gc.Name = "nginx" →
          ¬gc.Spec.ControllerName = "ctrl" →
          (processGatewayClasses [⟨"", "nginx", ⟨"ctrl", none⟩⟩] "nginx"
            "ctrl").1.Winner = none
          ∧ (processGatewayClasses [⟨"", "nginx", ⟨"ctrl", none⟩⟩] "nginx" "ctrl").2 = true)
      ∧ (processGatewayClasses [⟨"", "nginx", ⟨"ctrl", none⟩⟩] "nginx" "ctrl").1.Ignored =
          ([(⟨"", "nginx", ⟨"ctrl", none⟩⟩ : APIGatewayClass)].filter fun gc =>
            ¬gc.Name = "nginx" ∧ gc.Spec.ControllerName = "ctrl").map
            (fun gc => (objectKeyFromObject gc, gc))) :=
  processGatewayClasses_correct.1 [⟨"", "nginx", ⟨"ctrl", none⟩⟩] "nginx" "ctrl" (by simp)

/-- Claim C2: a GatewayClass with a non-nil ParametersRef is constructed (not
dropped) with Valid false and exactly one Condition whose message cites the
spec.parametersRef field; buildGatewayClass of nil is nil. -/
theorem buildGatewayClass_parametersRef :
    (∀ gc : APIGatewayClass, gc.Spec.ParametersRef.isSome = true →
      ∃ g : GatewayClass, buildGatewayClass (some gc) = some g ∧ g.Valid = false
        ∧ g.Conditions.length = 1
        ∧ ∀ c ∈ g.Conditions, ∃ rest : String, c.Message = "spec.parametersRef" ++ rest)
    ∧ buildGatewayClass none = none := by
  refine ⟨?_, rfl⟩
  intro gc h
  have hval : validateGatewayClass gc =
      some "spec.parametersRef: Forbidden: parametersRef is not supported" := by
    unfold validateGatewayClass
    simp [h]
  refine ⟨{ Source := gc, Valid := false,
            Conditions := [NewGatewayClassInvalidParameters
              "spec.parametersRef: Forbidden: parametersRef is not supported"] },
    ?_, rfl, rfl, ?_⟩
  · simp only [buildGatewayClass, hval]
  · intro c hc
    rw [List.mem_singleton] at hc
    subst hc
    exact ⟨": Forbidden: parametersRef is not supported", rfl⟩

/-- Witness for Claim C2 on a concrete GatewayClass carrying a ParametersRef. -/
theorem buildGatewayClass_parametersRef_witness :
    ∃ g : GatewayClass,
      buildGatewayClass (some ⟨"", "nginx", ⟨"ctrl", some ⟨"grp", "knd", "prm"⟩⟩⟩) = some g
      ∧ g.Valid = false ∧ g.Conditions.length = 1
      ∧ ∀ c ∈ g.Conditions, ∃ rest : String, c.Message = "spec.parametersRef" ++ rest :=
  buildGatewayClass_parametersRef.1 ⟨"", "nginx", ⟨"ctrl", some ⟨"grp", "knd", "prm"⟩⟩⟩ rfl

/-- Claim C3: higherPriority ranks by strict precedence — method presence
dominates everything, then header count, then query-parameter count. -/
theorem higherPriority_precedence (a b : MatchRule) :
    (a.GetMatch.Method.isSome = true → b.GetMatch.Method.isSome = false →
      higherPriority a b = true)
    ∧ (a.GetMatch.Method.isSome = b.GetMatch.Method.isSome →
      a.GetMatch.Headers.length > b.GetMatch.Headers.length →
      higherPriority a b = true)
    ∧ (a.GetMatch.Method.isSome = b.GetMatch.Method.isSome →
      a.GetMatch.Headers.length = b.GetMatch.Headers.length →
      a.GetMatch.QueryParams.length > b.GetMatch.QueryParams.length →
      higherPriority a b = true) := by
  refine ⟨?_, ?_, ?_⟩
  · intro h1 h2
    simp [higherPriority, h1, h2]
  · intro hm hh
    cases hA : a.GetMatch.Method.isSome <;>
      simp [higherPriority, hA, ← hm, hh, hh.ne']
  · intro hm hh hq
    cases hA : a.GetMatch.Method.isSome <;>
      simp [higherPriority, hA, ← hm, hh, hq, hq.ne']

/-- Witness for Claim C3: a rule with a method and no headers outranks a rule
with no method and five headers. -/
theorem higherPriority_precedence_witness :
    higherPriority ⟨⟨some "GET", [], []⟩, ⟨"ns", "a", 0⟩⟩
      ⟨⟨none, [⟨"h1", ""⟩, ⟨"h2", ""⟩, ⟨"h3", ""⟩, ⟨"h4", ""⟩, ⟨"h5", ""⟩], []⟩,
        ⟨"ns", "b", 0⟩⟩ = true :=
  (higherPriority_precedence _ _).1 rfl rfl

/-- Claim C4: with method presence, header count and query-param count all
tied, higherPriority is decided by the originating Route metadata — the older
creation timestamp wins, and on equal timestamps the lexicographically earlier
"namespace/name" wins. -/
theorem higherPriority_tiebreak (a b : MatchRule)
    (hm : a.GetMatch.Method.isSome = b.GetMatch.Method.isSome)
    (hh : a.GetMatch.Headers.length = b.GetMatch.Headers.length)
    (hq : a.GetMatch.QueryParams.length = b.GetMatch.QueryParams.length) :
    (a.SourceMeta.CreationTimestamp < b.SourceMeta.CreationTimestamp →
      higherPriority a b = true)
    ∧ (a.SourceMeta.CreationTimestamp = b.SourceMeta.CreationTimestamp →
      a.SourceMeta.Namespace ++ "/" ++ a.SourceMeta.Name
        < b.SourceMeta.Namespace ++ "/" ++ b.SourceMeta.Name →
      higherPriority a b = true) := by
  have hred : higherPriority a b = lessObjectMeta a.SourceMeta b.SourceMeta := by
    cases hA : a.GetMatch.Method.isSome <;>
      simp [higherPriority, hA, ← hm, hh, hq]
  constructor
  · intro ht
    rw [hred, lessObjectMeta_iff]
    exact Or.inl ht
  · intro ht hk
    rw [hred, lessObjectMeta_iff]
    exact Or.inr ⟨ht, hk⟩

/-- Witness for Claim C4: the rule from the older Route wins a full tie. -/
theorem higherPriority_tiebreak_witness :
    higherPriority ⟨⟨some "GET", [], []⟩, ⟨"ns", "a", 1⟩⟩
      ⟨⟨some "POST", [], []⟩, ⟨"ns", "b", 2⟩⟩ = true :=
  (higherPriority_tiebreak ⟨⟨some "GET", [], []⟩, ⟨"ns", "a", 1⟩⟩
    ⟨⟨some "POST", [], []⟩, ⟨"ns", "b", 2⟩⟩ rfl rfl rfl).1 (by decide)

/-- Claim C5: sortMatchRules is stable — two rules tied on every criterion
(method presence, header count, query-param count, originating-Route timestamp
and namespace/name) keep their relative input order in the output. -/
theorem sortMatchRules_stable (l : List MatchRule) (a b : MatchRule)
    (hm : a.GetMatch.Method.isSome = b.GetMatch.Method.isSome)
    (hh : a.GetMatch.Headers.length = b.GetMatch.Headers.length)
    (hq : a.GetMatch.QueryParams.length = b.GetMatch.QueryParams.length)
    (ht : a.SourceMeta.CreationTimestamp = b.SourceMeta.CreationTimestamp)
    (hns : a.SourceMeta.Namespace = b.SourceMeta.Namespace)
    (hn : a.SourceMeta.Name = b.SourceMeta.Name)
    (hsub : List.Sublist [a, b] l) :
    List.Sublist [a, b] (sortMatchRules l) := by
  unfold sortMatchRules
  have hkey := ruleKey_eq_of_tied a b hm hh hq ht hns hn
  have hba : higherPriority b a = false := by
    rw [higherPriority_false_iff, hkey]
    exact lt_irrefl _
  exact List.pair_sublist_mergeSort notHigher_trans notHigher_total
    (by simp [hba]) hsub

/-- Witness for Claim C5 on a concrete two-element list of tied rules. -/
theorem sortMatchRules_stable_witness :
    List.Sublist
      [(⟨⟨some "GET", [], []⟩, ⟨"ns", "x", 3⟩⟩ : MatchRule),
        ⟨⟨some "GET", [], []⟩, ⟨"ns", "x", 3⟩⟩]
      (sortMatchRules
        [⟨⟨some "GET", [], []⟩, ⟨"ns", "x", 3⟩⟩, ⟨⟨some "GET", [], []⟩, ⟨"ns", "x", 3⟩⟩]) :=
  sortMatchRules_stable _ _ _ rfl rfl rfl rfl rfl rfl (List.Sublist.refl _)

/-- Claim C6: every resolved endpoint is sourced from a slice whose address
type is IPv4 and whose Ports contain an entry matching the requested service
port — endpoints of non-IPv4 slices and of slices with no matching port never
reach the resolved set. -/
theorem resolver_excludes_slices (svc : Service) (port : Int)
    (slices : List EndpointSlice) (svcPort : ServicePort) (s : Finset Endpoint)
    (hsp : getServicePort svc port = Except.ok svcPort)
    (hres : resolveEndpoints svc port slices = Except.ok s)
    (ep : Endpoint) (hep : ep ∈ s) :
    ∃ es ∈ slices, es.AddrType = AddressType.IPv4 ∧ findPort es.Ports svcPort ≠ 0 ∧
      ∃ e ∈ es.Endpoints, ep.Address ∈ e.Addresses := by
  unfold resolveEndpoints at hres
  rw [hsp] at hres
  cases hres
  rcases (mem_resolveForPort svcPort slices ep).mp hep with
    ⟨es, hes, hig, e, he, _, a, ha, rfl⟩
  rw [ignoreEndpointSlice_false_iff] at hig
  exact ⟨es, hes, hig.1, hig.2, e, he, ha⟩

/-- Witness for Claim C6 on a concrete one-slice input. -/
theorem resolver_excludes_slices_witness :
    ∃ es ∈ [(⟨AddressType.IPv4, [⟨["10.0.0.1"], ⟨some true⟩⟩],
        [⟨some "p", some 80⟩]⟩ : EndpointSlice)],
      es.AddrType = AddressType.IPv4
      ∧ findPort es.Ports ⟨"p", 80, IntOrString.int 0⟩ ≠ 0
      ∧ ∃ e ∈ es.Endpoints, "10.0.0.1" ∈ e.Addresses :=
  resolver_excludes_slices ⟨[⟨"p", 80, IntOrString.int 0⟩]⟩ 80
    [⟨AddressType.IPv4, [⟨["10.0.0.1"], ⟨some true⟩⟩], [⟨some "p", some 80⟩]⟩]
    ⟨"p", 80, IntOrString.int 0⟩
    (resolveForPort ⟨"p", 80, IntOrString.int 0⟩
      [⟨AddressType.IPv4, [⟨["10.0.0.1"], ⟨some true⟩⟩], [⟨some "p", some 80⟩]⟩])
    rfl rfl ⟨"10.0.0.1", 80⟩ (by decide)

/-- Claim C7: resolved endpoints come only from endpoints whose readiness is
explicitly true (explicitly false or nil Ready is excluded); (address, port)
pairs are deduplicated — the mixed slice with one ready and one not-ready
endpoint sharing addresses A, B, C resolves to exactly the 3-element set; and
a slice with no Endpoints contributes nothing rather than erroring. -/
theorem resolver_ready_dedup :
    (∀ (svc : Service) (port : Int) (slices : List EndpointSlice)
        (svcPort : ServicePort) (s : Finset Endpoint),
      getServicePort svc port = Except.ok svcPort →
      resolveEndpoints svc port slices = Except.ok s →
      ∀ ep ∈ s, ∃ es ∈ slices, ∃ e ∈ es.Endpoints,
        e.Conditions.Ready = some true ∧ ep.Address ∈ e.Addresses)
    ∧ resolveEndpoints ⟨[⟨"svc-port", 80, IntOrString.int 0⟩]⟩ 80
        [⟨AddressType.IPv4,
          [⟨["10.0.0.1", "10.0.0.2", "10.0.0.3"], ⟨some true⟩⟩,
            ⟨["10.0.0.1", "10.0.0.2", "10.0.0.3"], ⟨some false⟩⟩],
          [⟨some "svc-port", some 80⟩]⟩] =
      Except.ok {⟨"10.0.0.1", 80⟩, ⟨"10.0.0.2", 80⟩, ⟨"10.0.0.3", 80⟩}
    ∧ ({⟨"10.0.0.1", 80⟩, ⟨"10.0.0.2", 80⟩, ⟨"10.0.0.3", 80⟩} : Finset Endpoint).card = 3
    ∧ (∀ (svc : Service) (port : Int) (slices : List EndpointSlice) (es : EndpointSlice),
      es.Endpoints = [] →
      resolveEndpoints svc port (es :: slices) = resolveEndpoints svc port slices) := by
  refine ⟨?_, ?_, by decide, ?_⟩
  · intro svc port slices svcPort s hsp hres ep hep
    unfold resolveEndpoints at hres
    rw [hsp] at hres
    cases hres
    rcases (mem_resolveForPort svcPort slices ep).mp hep with
      ⟨es, hes, _, e, he, hrdy, a, ha, rfl⟩
    rw [endpointReady_iff] at hrdy
    exact ⟨es, hes, e, he, hrdy, ha⟩
  · exact congrArg Except.ok (by decide)
  · intro svc port slices es hempty
    unfold resolveEndpoints
    cases h : getServicePort svc port with
    | error e => rfl
    | ok svcPort =>
      refine congrArg Except.ok (Finset.ext fun ep => ?_)
      rw [mem_resolveForPort, mem_resolveForPort]
      constructor
      · rintro ⟨es2, hes2, hig, e, he, hrest⟩
        rcases List.mem_cons.mp hes2 with rfl | hes3
        · rw [hempty] at he
          cases he
        · exact ⟨es2, hes3, hig, e, he, hrest⟩
      · rintro ⟨es2, hes2, hrest⟩
        exact ⟨es2, List.mem_cons_of_mem _ hes2, hrest⟩

/-- Witness for Claim C7: a slice without Endpoints yields an empty
contribution on a concrete input. -/
theorem resolver_ready_dedup_witness :
    resolveEndpoints ⟨[⟨"p", 80, IntOrString.int 0⟩]⟩ 80
      [(⟨AddressType.IPv4, [], [⟨some "p", some 80⟩]⟩ : EndpointSlice)] =
      resolveEndpoints ⟨[⟨"p", 80, IntOrString.int 0⟩]⟩ 80 [] :=
  resolver_ready_dedup.2.2.2 ⟨[⟨"p", 80, IntOrString.int 0⟩]⟩ 80 []
    ⟨AddressType.IPv4, [], [⟨some "p", some 80⟩]⟩ rfl

/-- Claim C8: endpoint resolution is idempotent and independent of the order
of the slices in the input list. -/
theorem resolver_idempotent_orderfree :
    (∀ (svc : Service) (port : Int) (slices : List EndpointSlice),
      resolveEndpoints svc port slices = resolveEndpoints svc port slices)
    ∧ (∀ (svc : Service) (port : Int) (slices1 slices2 : List EndpointSlice),
      slices1.Perm slices2 →
      resolveEndpoints svc port slices1 = resolveEndpoints svc port slices2) := by
  refine ⟨fun _ _ _ => rfl, ?_⟩
  intro svc port slices1 slices2 hperm
  unfold resolveEndpoints
  cases h : getServicePort svc port with
  | error e => rfl
  | ok svcPort =>
    refine congrArg Except.ok (Finset.ext fun ep => ?_)
    rw [mem_resolveForPort, mem_resolveForPort]
    constructor
    · rintro ⟨es, hes, hrest⟩
      exact ⟨es, hperm.mem_iff.mp hes, hrest⟩
    · rintro ⟨es, hes, hrest⟩
      exact ⟨es, hperm.mem_iff.mpr hes, hrest⟩

/-- Witness for Claim C8: swapping two concrete slices leaves the resolved
result unchanged. -/
theorem resolver_idempotent_orderfree_witness :
    resolveEndpoints ⟨[⟨"p", 80, IntOrString.int 0⟩]⟩ 80
      [(⟨AddressType.IPv4, [⟨["10.0.0.1"], ⟨some true⟩⟩], [⟨some "p", some 80⟩]⟩ :
          EndpointSlice),
        ⟨AddressType.IPv4, [⟨["10.0.0.2"], ⟨some true⟩⟩], [⟨some "p", some 80⟩]⟩] =
    resolveEndpoints ⟨[⟨"p", 80, IntOrString.int 0⟩]⟩ 80
      [⟨AddressType.IPv4, [⟨["10.0.0.2"], ⟨some true⟩⟩], [⟨some "p", some 80⟩]⟩,
        ⟨AddressType.IPv4, [⟨["10.0.0.1"], ⟨some true⟩⟩], [⟨some "p", some 80⟩]⟩] :=
  resolver_idempotent_orderfree.2 ⟨[⟨"p", 80, IntOrString.int 0⟩]⟩ 80
    [⟨AddressType.IPv4, [⟨["10.0.0.1"], ⟨some true⟩⟩], [⟨some "p", some 80⟩]⟩,
      ⟨AddressType.IPv4, [⟨["10.0.0.2"], ⟨some true⟩⟩], [⟨some "p", some 80⟩]⟩]
    [⟨AddressType.IPv4, [⟨["10.0.0.2"], ⟨some true⟩⟩], [⟨some "p", some 80⟩]⟩,
      ⟨AddressType.IPv4, [⟨["10.0.0.1"], ⟨some true⟩⟩], [⟨some "p", some 80⟩]⟩]
    (List.Perm.swap _ _ _)

/-- Claim C9: a nil endpoint Port falls back to the Service target port
resolution — an integer target port is used directly, while a named (string)
target port or an absent (zero-value) target port resolves to the declared
Port value, as on the two concrete examples. -/
theorem endpointPort_fallback :
    (∀ (p : EndpointPort) (rest : List EndpointPort) (svcPort : ServicePort),
      p.Port = none → findPort (p :: rest) svcPort = getDefaultPort svcPort)
    ∧ (∀ (nm : String) (port v : Int), v ≠ 0 →
      getDefaultPort ⟨nm, port, IntOrString.int v⟩ = v)
    ∧ (∀ (nm s : String) (port : Int), getDefaultPort ⟨nm, port, IntOrString.str s⟩ = port)
    ∧ (∀ (nm : String) (port : Int), getDefaultPort ⟨nm, port, IntOrString.int 0⟩ = port)
    ∧ getDefaultPort ⟨"", 80, IntOrString.str "http"⟩ = 80
    ∧ getDefaultPort ⟨"", 80, IntOrString.int 8080⟩ = 8080 := by
  refine ⟨?_, ?_, fun _ _ _ => rfl, fun _ _ => rfl, rfl, rfl⟩
  · rintro ⟨pName, pPort⟩ rest svcPort hp
    simp only at hp
    subst hp
    rfl
  · intro nm port v hv
    unfold getDefaultPort
    simp [hv]

/-- Witness for Claim C9: a concrete nil endpoint port falls back to the
target port resolution. -/
theorem endpointPort_fallback_witness :
    findPort [(⟨some "x", none⟩ : EndpointPort)] ⟨"p", 80, IntOrString.int 8080⟩ =
      getDefaultPort ⟨"p", 80, IntOrString.int 8080⟩ :=
  endpointPort_fallback.1 ⟨some "x", none⟩ [] ⟨"p", 80, IntOrString.int 8080⟩ rfl
